import Mathlib

/-!
Verification development for the voice-assistant backend
(src/backend/server.ts).  The definitions below are a shallow embedding of
the call-session audio-stream processor: chunk buffering and ordering
(AudioStreamProcessor.addChunk), the flush decision (processBuffer), the
voice-activity detector (detectVoiceActivity, adjustVADThreshold,
analyzeFrequencyCharacteristics), and the two downstream pipelines
(processAudioForTranscription for the streaming path, handleAudioComplete
for the audio_complete path), together with the interrupt handler
(handleAIInterrupt).

Modelling conventions:
 - JS numbers are embedded as exact rationals; Math.sqrt is a parameter
   (any function ℚ → ℚ), so every theorem about energy computations holds
   for an arbitrary square-root implementation, constrained only where a
   claim needs it (e.g. sqrt 0 = 0).
 - Byte buffers are lists of naturals (each entry one unsigned byte).
 - The three remote services (AssemblyAI transcription, Groq completion,
   Google TTS) are opaque collaborators; a pipeline run is embedded as a
   pure function of an oracle giving each call's outcome
   (Except String α = resolved value / thrown error).
 - ws.send calls are collected into an ordered event list; console.log
   output, timestamps and temp-file bookkeeping have no client-visible
   effect and are omitted.
-/

namespace VoiceBackend

/-- Roles of conversation-history entries (CallSession.conversationHistory).
Timestamps on entries are wall-clock bookkeeping and are omitted. -/
inductive Role where
  | user
  | assistant
deriving Repr, DecidableEq

/-- One entry of CallSession.conversationHistory. -/
structure ChatMessage where
  role : Role
  content : String
deriving Repr, DecidableEq

/-- CallSession.state values. -/
inductive SessState where
  | IDLE
  | ACTIVE
  | ENDING
deriving Repr, DecidableEq

/-- CallSession, restricted to the fields the claims depend on
(sessionId and the Date fields do not influence any modelled behaviour). -/
structure CallSession where
  state : SessState
  history : List ChatMessage
deriving Repr, DecidableEq

/-- CallSession.addUserMessage. -/
def addUserMessage (s : CallSession) (text : String) : CallSession :=
  { s with history := s.history ++ [{ role := Role.user, content := text }] }

/-- CallSession.addAIMessage. -/
def addAIMessage (s : CallSession) (text : String) : CallSession :=
  { s with history := s.history ++ [{ role := Role.assistant, content := text }] }

/-- An audio chunk as buffered by AudioStreamProcessor.audioChunks:
payload bytes, sequence number, timestamp. -/
structure AudioChunk where
  data : List Nat
  sequence : Int
  timestamp : Int
deriving Repr, DecidableEq

/-- maxBufferSize field of AudioStreamProcessor. -/
def maxBufferSize : Nat := 30

/-- Ordered insertion of a chunk into a buffer that is already sorted by
sequence number.  This embeds `audioChunks.push(c)` followed by the stable
`audioChunks.sort((a, b) => a.sequence - b.sequence)`: on a sorted buffer,
a stable sort places the newly pushed element after every element with an
equal or smaller sequence number, which is exactly this insertion. -/
def insertChunk (c : AudioChunk) : List AudioChunk → List AudioChunk
  | [] => [c]
  | x :: xs => if c.sequence < x.sequence then c :: x :: xs else x :: insertChunk c xs

/-- Buffer-size limiting from addChunk: when the buffer exceeds
maxBufferSize, `slice(-maxBufferSize)` keeps only the most recent
maxBufferSize chunks, i.e. drops the oldest ones from the front. -/
def trimBuffer (l : List AudioChunk) : List AudioChunk :=
  if maxBufferSize < l.length then l.drop (l.length - maxBufferSize) else l

/-- The buffer-mutation part of AudioStreamProcessor.addChunk
(push, sort by sequence, limit size). -/
def addChunkBuf (buf : List AudioChunk) (c : AudioChunk) : List AudioChunk :=
  trimBuffer (insertChunk c buf)

/-- Buffer contents after adding a whole list of chunks, in arrival order,
to an initially empty buffer. -/
def buildBuffer (chunks : List AudioChunk) : List AudioChunk :=
  chunks.foldl addChunkBuf []

/-- Concatenation of buffered chunk payloads, as done by
processAudioForTranscription: `Buffer.alloc(combinedLength)` followed by
an in-order copy loop is an in-order concatenation. -/
def combinedAudio (buf : List AudioChunk) : List Nat :=
  buf.foldl (fun acc c => acc ++ c.data) []

/-- combinedLength from processAudioForTranscription:
`audioChunks.reduce((total, chunk) => total + chunk.data.length, 0)`. -/
def combinedLength (buf : List AudioChunk) : Nat :=
  (buf.map (fun c => c.data.length)).sum

/-- A buffer sorted in ascending sequence-number order. -/
def ChunkSorted (l : List AudioChunk) : Prop :=
  l.Pairwise (fun a b => a.sequence ≤ b.sequence)

theorem insertChunk_length (c : AudioChunk) (l : List AudioChunk) :
    (insertChunk c l).length = l.length + 1 := by
  induction l with
  | nil => rfl
  | cons x xs ih =>
    simp only [insertChunk]
    split
    · simp
    · simp [ih]

theorem insertChunk_perm (c : AudioChunk) (l : List AudioChunk) :
    (insertChunk c l).Perm (c :: l) := by
  induction l with
  | nil => exact List.Perm.refl _
  | cons x xs ih =>
    simp only [insertChunk]
    split
    · exact List.Perm.refl _
    · exact List.Perm.trans (List.Perm.cons x ih) (List.Perm.swap c x xs)

theorem insertChunk_sorted (c : AudioChunk) (l : List AudioChunk)
    (h : ChunkSorted l) : ChunkSorted (insertChunk c l) := by
  induction l with
  | nil => simp [ChunkSorted, insertChunk]
  | cons x xs ih =>
    simp only [ChunkSorted, List.pairwise_cons] at h
    simp only [insertChunk]
    split
    · rename_i hlt
      simp only [ChunkSorted, List.pairwise_cons]
      refine ⟨?_, h.1, h.2⟩
      intro b hb
      rcases List.mem_cons.mp hb with hb | hb
      · subst hb
        exact le_of_lt hlt
      · exact le_trans (le_of_lt hlt) (h.1 b hb)
    · rename_i hge
      simp only [ChunkSorted, List.pairwise_cons]
      constructor
      · intro b hb
        have hperm := insertChunk_perm c xs
        have hmem : b ∈ c :: xs := hperm.mem_iff.mp hb
        rcases List.mem_cons.mp hmem with hb2 | hb2
        · subst hb2
          exact le_of_not_lt hge
        · exact h.1 b hb2
      · exact ih h.2

theorem trimBuffer_sorted (l : List AudioChunk) (h : ChunkSorted l) :
    ChunkSorted (trimBuffer l) := by
  unfold trimBuffer
  split
  · exact List.Pairwise.sublist (List.drop_sublist _ _) h
  · exact h

theorem trimBuffer_length_le (l : List AudioChunk) :
    (trimBuffer l).length ≤ l.length :=
  List.Sublist.length_le (by unfold trimBuffer; split
                             · exact List.drop_sublist _ _
                             · exact List.Sublist.refl _)

theorem trimBuffer_eq_of_le (l : List AudioChunk)
    (h : l.length ≤ maxBufferSize) : trimBuffer l = l := by
  unfold trimBuffer
  split
  · omega
  · rfl

theorem addChunkBuf_sorted (buf : List AudioChunk) (c : AudioChunk)
    (h : ChunkSorted buf) : ChunkSorted (addChunkBuf buf c) :=
  trimBuffer_sorted _ (insertChunk_sorted c buf h)

theorem buildBuffer_sorted (chunks : List AudioChunk) :
    ChunkSorted (buildBuffer chunks) := by
  have general : ∀ (cs : List AudioChunk) (buf : List AudioChunk),
      ChunkSorted buf → ChunkSorted (cs.foldl addChunkBuf buf) := by
    intro cs
    induction cs with
    | nil => intro buf h; exact h
    | cons c cs ih =>
      intro buf h
      exact ih _ (addChunkBuf_sorted buf c h)
  exact general chunks [] (by simp [ChunkSorted])

theorem buildBuffer_perm (chunks : List AudioChunk)
    (h : chunks.length ≤ maxBufferSize) :
    (buildBuffer chunks).Perm chunks := by
  have general : ∀ (cs : List AudioChunk) (buf : List AudioChunk),
      buf.length + cs.length ≤ maxBufferSize →
      (cs.foldl addChunkBuf buf).Perm (buf ++ cs) := by
    intro cs
    induction cs with
    | nil => intro buf _; simp
    | cons c cs ih =>
      intro buf hlen
      simp only [List.foldl_cons]
      have hins : (insertChunk c buf).length ≤ maxBufferSize := by
        rw [insertChunk_length]
        simp only [List.length_cons] at hlen
        omega
      have htrim : addChunkBuf buf c = insertChunk c buf :=
        trimBuffer_eq_of_le _ hins
      have hstep := ih (addChunkBuf buf c) (by
        rw [htrim, insertChunk_length]
        simp only [List.length_cons] at hlen
        omega)
      refine hstep.trans ?_
      rw [htrim]
      have h1 : (insertChunk c buf ++ cs).Perm ((c :: buf) ++ cs) :=
        (insertChunk_perm c buf).append_right cs
      have h2 : ((c :: buf) ++ cs).Perm (buf ++ c :: cs) := by
        simp only [List.cons_append]
        exact List.perm_middle.symm
      exact h1.trans h2
  simpa using general chunks [] (by simpa using h)

theorem combinedAudio_eq_flatten (buf : List AudioChunk) :
    combinedAudio buf = (buf.map AudioChunk.data).flatten := by
  have general : ∀ (l : List AudioChunk) (acc : List Nat),
      l.foldl (fun acc c => acc ++ c.data) acc = acc ++ (l.map AudioChunk.data).flatten := by
    intro l
    induction l with
    | nil => intro acc; simp
    | cons x xs ih => intro acc; simp [ih]
  simpa using general buf []

/-- energyThreshold field of AudioStreamProcessor (the static fallback
threshold used until enough energy history has accumulated). -/
def energyThreshold : ℚ := 0.05

/-- maxEnergyHistorySize field of AudioStreamProcessor. -/
def maxEnergyHistorySize : Nat := 50

/-- AudioStreamProcessor.adjustVADThreshold, as a function of the
recentEnergyLevels history.  `Math.floor(len * 0.25)` and
`Math.floor(len * 0.5)` are exact for these list lengths, so they embed
as natural division by 4 and 2. -/
def adjustVADThreshold (recentEnergyLevels : List ℚ) : ℚ :=
  if recentEnergyLevels.length < 10 then energyThreshold
  else
    let sortedLevels := recentEnergyLevels.mergeSort (fun a b => decide (a ≤ b))
    let noiseFloor := sortedLevels.getD (recentEnergyLevels.length / 4) 0
    let medianEnergy := sortedLevels.getD (recentEnergyLevels.length / 2) 0
    let dynamicThreshold := noiseFloor + (medianEnergy - noiseFloor) * 0.5
    max 0.003 (min 0.02 dynamicThreshold)

/-- Byte access `audioData[i]`; indices used by the source loops are
always in bounds, so a default of 0 is never consulted. -/
def byteAt (a : List Nat) (i : Nat) : Nat :=
  a.getD i 0

/-- One strided difference-of-squares loop from
analyzeFrequencyCharacteristics:
`for (let i = start; i < len; i += sp + 1) acc += (|a[i] - a[i-gap]|)^2`. -/
def strideSumSq (a : List Nat) (gap sp : Nat) (i : Nat) : Nat :=
  if h : i < a.length then
    (Int.natAbs ((byteAt a i : Int) - (byteAt a (i - gap) : Int))) ^ 2
      + strideSumSq a gap sp (i + sp + 1)
  else 0
termination_by a.length - i
decreasing_by omega

/-- The variation loop of analyzeFrequencyCharacteristics
(`for (let i = 10; i < len; i += 10)`), returning
(sumDiffs, sumDiffsSq, count). -/
def diffStats (a : List Nat) (i : Nat) : Nat × Nat × Nat :=
  if h : i < a.length then
    let d := Int.natAbs ((byteAt a i : Int) - (byteAt a (i - 10) : Int))
    let r := diffStats a (i + 10)
    (d + r.1, d ^ 2 + r.2.1, 1 + r.2.2)
  else (0, 0, 0)
termination_by a.length - i
decreasing_by omega

/-- Result record of analyzeFrequencyCharacteristics.  The source also
computes a high-to-low energy quotient, but never uses it in any output;
it is omitted. -/
structure FreqAnalysis where
  isLikelyVoice : Bool
  lowEnergy : ℚ
  midEnergy : ℚ
  highEnergy : ℚ
  voiceConfidence : ℚ
deriving Repr, DecidableEq

/-- AudioStreamProcessor.analyzeFrequencyCharacteristics, parametrized by
the square-root implementation. -/
def analyzeFrequencyCharacteristics (sqrt : ℚ → ℚ) (audioData : List Nat) :
    FreqAnalysis :=
  if audioData.length < 100 then
    { isLikelyVoice := false, lowEnergy := 0, midEnergy := 0, highEnergy := 0,
      voiceConfidence := 0 }
  else
    let centerValue : ℚ := 128
    let sampleCount : ℚ := (audioData.length : ℚ)
    let lowBandEnergy :=
      sqrt ((strideSumSq audioData 20 2 20 : ℚ) / (sampleCount / 3)) / centerValue
    let midBandEnergy :=
      sqrt ((strideSumSq audioData 8 1 8 : ℚ) / (sampleCount / 2)) / centerValue
    let highBandEnergy :=
      sqrt ((strideSumSq audioData 1 0 1 : ℚ) / sampleCount) / centerValue
    let totalEnergy := lowBandEnergy + midBandEnergy + highBandEnergy + 0.0001
    let midBandShare := midBandEnergy / totalEnergy
    let stats := diffStats audioData 10
    let countQ : ℚ := (stats.2.2 : ℚ)
    let meanDiff := if 0 < stats.2.2 then (stats.1 : ℚ) / countQ else 0
    let stdDevDiff :=
      if 0 < stats.2.2 then sqrt ((stats.2.1 : ℚ) / countQ - meanDiff * meanDiff)
      else 0
    let normalizedStdDev := stdDevDiff / centerValue
    let midBandScore := min 1 (midBandShare * 2)
    let variationScore := min 1 (normalizedStdDev * 10)
    let voiceConfidence := midBandScore * 0.6 + variationScore * 0.4
    let isLikelyVoice := decide (0.4 < voiceConfidence) && decide (0.1 < midBandEnergy)
    { isLikelyVoice := isLikelyVoice, lowEnergy := lowBandEnergy,
      midEnergy := midBandEnergy, highEnergy := highBandEnergy,
      voiceConfidence := voiceConfidence }

/-- Outputs of AudioStreamProcessor.detectVoiceActivity that flow into
later behaviour or the vad_status message: the new vadActive flag, the
RMS level, the threshold used, the updated energy history, and the
frequency analysis. -/
structure VadResult where
  vadActive : Bool
  audioLevel : ℚ
  threshold : ℚ
  recentEnergyLevels : List ℚ
  freq : FreqAnalysis
deriving Repr, DecidableEq

/-- Sum of squared distances of each byte from the channel midpoint 128,
the totalEnergy accumulator of detectVoiceActivity. -/
def totalByteEnergy (audioData : List Nat) : Nat :=
  audioData.foldl (fun acc v => acc + (Int.natAbs ((v : Int) - 128)) ^ 2) 0

/-- AudioStreamProcessor.detectVoiceActivity, parametrized by the
square-root implementation and by the current recentEnergyLevels history.
The min/max/histogram statistics only feed console logging and are
omitted; the vad_status send carries exactly the returned fields. -/
def detectVoiceActivity (sqrt : ℚ → ℚ) (recentEnergyLevels : List ℚ)
    (audioData : List Nat) : VadResult :=
  let rms := sqrt ((totalByteEnergy audioData : ℚ) / (audioData.length : ℚ)) / 128
  let pushed := recentEnergyLevels ++ [rms]
  let hist1 := if maxEnergyHistorySize < pushed.length then pushed.drop 1 else pushed
  let currentThreshold :=
    if 10 ≤ hist1.length then adjustVADThreshold hist1 else energyThreshold
  let freqAnalysis := analyzeFrequencyCharacteristics sqrt audioData
  let energyDetectedVoice := decide (currentThreshold < rms)
  let vadActive :=
    (energyDetectedVoice && decide (0.2 < freqAnalysis.voiceConfidence))
      || (decide (currentThreshold * 0.7 < rms)
            && decide (0.5 < freqAnalysis.voiceConfidence))
  { vadActive := vadActive, audioLevel := rms, threshold := currentThreshold,
    recentEnergyLevels := hist1, freq := freqAnalysis }

theorem totalByteEnergy_replicate_mid (n : Nat) :
    totalByteEnergy (List.replicate n (128 : Nat)) = 0 := by
  have general : ∀ (m : Nat) (acc : Nat),
      (List.replicate m (128 : Nat)).foldl
        (fun acc v => acc + (Int.natAbs ((v : Int) - 128)) ^ 2) acc = acc := by
    intro m
    induction m with
    | zero => intro acc; rfl
    | succ k ih =>
      intro acc
      simp only [List.replicate_succ, List.foldl_cons]
      have : (Int.natAbs ((128 : Int) - 128)) ^ 2 = 0 := by decide
      simpa [this] using ih acc
  unfold totalByteEnergy
  exact general n 0

theorem adjustVADThreshold_pos (hist : List ℚ) : 0 < adjustVADThreshold hist := by
  unfold adjustVADThreshold
  split
  · norm_num [energyThreshold]
  · exact lt_of_lt_of_le (by norm_num) (le_max_left _ _)

theorem detectVoiceActivity_threshold_pos (sqrt : ℚ → ℚ) (hist : List ℚ)
    (audioData : List Nat) :
    0 < (detectVoiceActivity sqrt hist audioData).threshold := by
  unfold detectVoiceActivity
  simp only
  split <;> split
  all_goals first
    | exact adjustVADThreshold_pos _
    | norm_num [energyThreshold]

/-- C8: for every buffer whose bytes all equal the channel midpoint 128
and for every prior energy history (and any square-root implementation
with sqrt 0 = 0), detectVoiceActivity reports no speech: the RMS energy is
exactly 0, the threshold in force is positive (the dynamic threshold is
clamped to at least 0.003, the static fallback is 0.05), so neither
decision path of the two-path OR rule can fire. -/
theorem C8_vad_silent_buffer (sqrt : ℚ → ℚ) (h0 : sqrt 0 = 0)
    (hist : List ℚ) (n : Nat) :
    (detectVoiceActivity sqrt hist (List.replicate n (128 : Nat))).audioLevel = 0 ∧
    0 < (detectVoiceActivity sqrt hist (List.replicate n (128 : Nat))).threshold ∧
    (detectVoiceActivity sqrt hist (List.replicate n (128 : Nat))).vadActive = false := by
  have haud :
      (detectVoiceActivity sqrt hist (List.replicate n (128 : Nat))).audioLevel = 0 := by
    show sqrt ((totalByteEnergy (List.replicate n (128 : Nat)) : ℚ)
        / ((List.replicate n (128 : Nat)).length : ℚ)) / 128 = 0
    rw [totalByteEnergy_replicate_mid]
    norm_num [h0]
  have hthr := detectVoiceActivity_threshold_pos sqrt hist (List.replicate n (128 : Nat))
  refine ⟨haud, hthr, ?_⟩
  set r := detectVoiceActivity sqrt hist (List.replicate n (128 : Nat)) with hr
  have hb : r.vadActive =
      ((decide (r.threshold < r.audioLevel)
          && decide ((0.2 : ℚ) < r.freq.voiceConfidence))
        || (decide (r.threshold * 0.7 < r.audioLevel)
          && decide ((0.5 : ℚ) < r.freq.voiceConfidence))) := rfl
  rw [hb, haud]
  have h1 : decide (r.threshold < 0) = false :=
    decide_eq_false (not_lt.mpr (le_of_lt hthr))
  have h2 : decide (r.threshold * 0.7 < 0) = false :=
    decide_eq_false (not_lt.mpr (le_of_lt (mul_pos hthr (by norm_num))))
  simp [h1, h2]

/-- Closed witness for C8: a concrete 150-byte silent chunk against a
12-entry energy history (long enough that the dynamic-threshold path is
the one in force). -/
theorem C8_vad_silent_buffer_witness :
    (detectVoiceActivity (fun _ => 0)
        [0.01, 0.02, 0.01, 0.03, 0.01, 0.02, 0.04, 0.01, 0.02, 0.01, 0.03, 0.02]
        (List.replicate 150 (128 : Nat))).audioLevel = 0 ∧
    0 < (detectVoiceActivity (fun _ => 0)
        [0.01, 0.02, 0.01, 0.03, 0.01, 0.02, 0.04, 0.01, 0.02, 0.01, 0.03, 0.02]
        (List.replicate 150 (128 : Nat))).threshold ∧
    (detectVoiceActivity (fun _ => 0)
        [0.01, 0.02, 0.01, 0.03, 0.01, 0.02, 0.04, 0.01, 0.02, 0.01, 0.03, 0.02]
        (List.replicate 150 (128 : Nat))).vadActive = false :=
  C8_vad_silent_buffer (fun _ => 0) rfl
    [0.01, 0.02, 0.01, 0.03, 0.01, 0.02, 0.04, 0.01, 0.02, 0.01, 0.03, 0.02] 150

/-- Mutable fields of AudioStreamProcessor relevant to chunk buffering and
flush decisions, for a session whose CallSession is ACTIVE (the
audio_chunk handler in handleJsonMessage only forwards chunks to addChunk
while the session is ACTIVE, and processAudioForTranscription's own
ACTIVE-session guard therefore passes). -/
structure ProcState where
  audioChunks : List AudioChunk
  isProcessing : Bool
  vadActive : Bool
  recentEnergyLevels : List ℚ
deriving Repr, DecidableEq

/-- Initial AudioStreamProcessor state (constructor field initializers). -/
def initProcState : ProcState :=
  { audioChunks := [], isProcessing := false, vadActive := false,
    recentEnergyLevels := [] }

/-- The latest chunk examined by processBuffer:
`audioChunks[audioChunks.length - 1]` on the sequence-sorted buffer. -/
def latestChunk (l : List AudioChunk) : AudioChunk :=
  l.getLastD { data := [], sequence := 0, timestamp := 0 }

/-- The synchronous part of AudioStreamProcessor.processBuffer, returning
the new state and the number of flushes started (invocations of
processAudioForTranscription).  When a flush is started on non-empty
combined audio, the first await inside processAudioForTranscription
suspends with isProcessing still true; completion of that asynchronous
pipeline is the separate finishProcessing step below.  When the combined
audio is empty, processAudioForTranscription clears the buffer and
returns synchronously, so processBuffer's finally-block resets
isProcessing within the same step. -/
def processBufferStep (sqrt : ℚ → ℚ) (s : ProcState) : ProcState × Nat :=
  if s.audioChunks.length = 0 ∨ s.isProcessing then (s, 0)
  else
    let v := detectVoiceActivity sqrt s.recentEnergyLevels (latestChunk s.audioChunks).data
    let s1 := { s with vadActive := v.vadActive, recentEnergyLevels := v.recentEnergyLevels }
    let forceProcess := 8 ≤ s1.audioChunks.length
    if (5 ≤ s1.audioChunks.length ∧ s1.vadActive = false) ∨ forceProcess then
      if combinedLength s1.audioChunks = 0 then
        ({ s1 with audioChunks := [], isProcessing := false }, 1)
      else
        ({ s1 with isProcessing := true }, 1)
    else
      ({ s1 with isProcessing := false }, 0)

/-- Events driving the processor on an ACTIVE session: a client
audio_chunk message (addChunk plus the synchronous prefix of
processBuffer), and the completion of an in-flight
processAudioForTranscription pipeline (its finally-block clears the
chunk buffer, then processBuffer's finally-block resets isProcessing). -/
inductive ProcEvent where
  | addChunk (c : AudioChunk)
  | finishProcessing
deriving Repr, DecidableEq

/-- One step of the processor; the Nat counts flushes started. -/
def procStep (sqrt : ℚ → ℚ) (e : ProcEvent) (s : ProcState) : ProcState × Nat :=
  match e with
  | ProcEvent.addChunk c =>
    let s1 := { s with audioChunks := addChunkBuf s.audioChunks c }
    if s.isProcessing then (s1, 0) else processBufferStep sqrt s1
  | ProcEvent.finishProcessing =>
    if s.isProcessing then
      ({ s with audioChunks := [], isProcessing := false }, 0)
    else (s, 0)

/-- Run a list of events from a state. -/
def runProc (sqrt : ℚ → ℚ) (evs : List ProcEvent) (s : ProcState) : ProcState :=
  evs.foldl (fun st e => (procStep sqrt e st).1) s

theorem insertChunk_ne_nil (c : AudioChunk) (l : List AudioChunk) :
    insertChunk c l ≠ [] := by
  intro h
  have := insertChunk_length c l
  rw [h] at this
  simp at this

theorem addChunkBuf_length_le (buf : List AudioChunk) (c : AudioChunk) :
    (addChunkBuf buf c).length ≤ buf.length + 1 := by
  unfold addChunkBuf
  calc (trimBuffer (insertChunk c buf)).length
      ≤ (insertChunk c buf).length := trimBuffer_length_le _
    _ = buf.length + 1 := insertChunk_length c buf

/-- Invariant: while no pipeline is in flight, the buffer holds at most 7
chunks (one below the force-flush high watermark). -/
def ProcInv (s : ProcState) : Prop :=
  s.isProcessing = false → s.audioChunks.length ≤ 7

theorem processBufferStep_inv (sqrt : ℚ → ℚ) (s : ProcState)
    (hlen : s.audioChunks.length ≤ 8) :
    ProcInv (processBufferStep sqrt s).1 := by
  unfold processBufferStep
  split
  · rename_i hg
    dsimp only
    intro hp
    rcases hg with hg | hg
    · omega
    · rw [hg] at hp
      simp at hp
  · dsimp only
    split
    · split
      · intro _
        simp
      · intro hfalse
        simp at hfalse
    · rename_i hnoflush
      intro _
      dsimp only
      have h8 : ¬ 8 ≤ s.audioChunks.length := fun hh => hnoflush (Or.inr hh)
      omega

theorem procStep_preserves_inv (sqrt : ℚ → ℚ) (e : ProcEvent) (s : ProcState)
    (h : ProcInv s) : ProcInv (procStep sqrt e s).1 := by
  cases e with
  | addChunk c =>
    simp only [procStep]
    by_cases hp : s.isProcessing
    · simp only [hp, if_true]
      intro hfalse
      simp at hfalse
    · simp only [hp, Bool.false_eq_true, if_false]
      refine processBufferStep_inv sqrt _ ?_
      have h7 := h (by simpa using hp)
      have := addChunkBuf_length_le s.audioChunks c
      dsimp only
      omega
  | finishProcessing =>
    simp only [procStep]
    split
    · intro _; simp
    · exact h

theorem runProc_inv (sqrt : ℚ → ℚ) (evs : List ProcEvent) (s : ProcState)
    (h : ProcInv s) : ProcInv (runProc sqrt evs s) := by
  induction evs generalizing s with
  | nil => exact h
  | cons e evs ih =>
    exact ih _ (procStep_preserves_inv sqrt e s h)

/-- C5: along any stream of events on an active session, (i) whenever the
chunk buffer holds more than the high watermark of 8 chunks, a flush is in
flight (isProcessing is set, and the asynchronous pipeline it denotes was
started by a watermark hit); (ii) any single step starts at most one
flush; (iii) while a flush is in flight, no further flush is started, so
at most one flush occurs per watermark-reached window. -/
theorem C5_watermark_bound (sqrt : ℚ → ℚ) (evs : List ProcEvent) :
    (8 < (runProc sqrt evs initProcState).audioChunks.length →
      (runProc sqrt evs initProcState).isProcessing = true) ∧
    (∀ e : ProcEvent, (procStep sqrt e (runProc sqrt evs initProcState)).2 ≤ 1) ∧
    ((runProc sqrt evs initProcState).isProcessing = true →
      ∀ e : ProcEvent, (procStep sqrt e (runProc sqrt evs initProcState)).2 = 0) := by
  have hinv : ProcInv (runProc sqrt evs initProcState) :=
    runProc_inv sqrt evs initProcState (by intro _; simp [initProcState])
  refine ⟨?_, ?_, ?_⟩
  · intro hlen
    by_contra hp
    have h7 := hinv (by simpa using hp)
    omega
  · intro e
    cases e with
    | addChunk c =>
      simp only [procStep]
      split
      · norm_num
      · unfold processBufferStep
        split
        · norm_num
        · simp only
          split
          · split
            all_goals norm_num
          · norm_num
    | finishProcessing =>
      simp only [procStep]
      split
      all_goals norm_num
  · intro hp e
    cases e with
    | addChunk c =>
      simp only [procStep, hp, if_true]
    | finishProcessing =>
      simp only [procStep, hp, if_true]

/-- Nine one-byte silent chunks arriving in sequence order. -/
def nineSilentAdds : List ProcEvent :=
  [ProcEvent.addChunk { data := [128], sequence := 0, timestamp := 0 },
   ProcEvent.addChunk { data := [128], sequence := 1, timestamp := 0 },
   ProcEvent.addChunk { data := [128], sequence := 2, timestamp := 0 },
   ProcEvent.addChunk { data := [128], sequence := 3, timestamp := 0 },
   ProcEvent.addChunk { data := [128], sequence := 4, timestamp := 0 },
   ProcEvent.addChunk { data := [128], sequence := 5, timestamp := 0 },
   ProcEvent.addChunk { data := [128], sequence := 6, timestamp := 0 },
   ProcEvent.addChunk { data := [128], sequence := 7, timestamp := 0 },
   ProcEvent.addChunk { data := [128], sequence := 8, timestamp := 0 }]

/-- Closed witness for C5: nine one-byte chunks arrive in order; the fifth
(silent, so VAD reports silence) starts a flush, and the four that follow
while that pipeline is in flight leave nine chunks buffered with the flush
still in flight. -/
theorem C5_watermark_bound_witness :
    8 < (runProc (fun _ => 0) nineSilentAdds initProcState).audioChunks.length ∧
    (runProc (fun _ => 0) nineSilentAdds initProcState).isProcessing = true :=
  have h := C5_watermark_bound (fun _ => 0) nineSilentAdds
  ⟨by with_unfolding_all decide, h.1 (by with_unfolding_all decide)⟩

theorem trimBuffer_length_pos (l : List AudioChunk) (h : 0 < l.length) :
    0 < (trimBuffer l).length := by
  unfold trimBuffer
  split
  · rename_i hgt
    rw [List.length_drop]
    unfold maxBufferSize at hgt ⊢
    omega
  · exact h

/-- C7: on a new chunk of an active session with no pipeline already being
processed, addChunk starts a flush (invokes
processAudioForTranscription) if and only if either the buffer (after the
insertion) holds at least the low watermark of 5 chunks and the VAD state
just computed for the latest chunk is silence, or it holds at least the
high watermark of 8 chunks regardless of VAD state. -/
theorem C7_flush_decision (sqrt : ℚ → ℚ) (c : AudioChunk) (s : ProcState)
    (hp : s.isProcessing = false) :
    (procStep sqrt (ProcEvent.addChunk c) s).2 = 1 ↔
      ((5 ≤ (addChunkBuf s.audioChunks c).length ∧
          (detectVoiceActivity sqrt s.recentEnergyLevels
            (latestChunk (addChunkBuf s.audioChunks c)).data).vadActive = false) ∨
        8 ≤ (addChunkBuf s.audioChunks c).length) := by
  have hne : 0 < (addChunkBuf s.audioChunks c).length := by
    unfold addChunkBuf
    apply trimBuffer_length_pos
    rw [insertChunk_length]
    omega
  simp only [procStep, hp, Bool.false_eq_true, if_false]
  unfold processBufferStep
  dsimp only
  have hguard : ¬((addChunkBuf s.audioChunks c).length = 0 ∨ false = true) := by
    rintro (h0 | habs)
    · omega
    · simp at habs
  rw [if_neg hguard]
  split
  · rename_i hcond
    constructor
    · intro _
      exact hcond
    · intro _
      split
      · rfl
      · rfl
  · rename_i hcond
    constructor
    · intro h1
      simp at h1
    · intro hr
      exact absurd hr hcond

/-- A processor state with four silent one-byte chunks buffered and no
pipeline in flight. -/
def fourChunkState : ProcState :=
  { audioChunks :=
      [{ data := [128], sequence := 0, timestamp := 0 },
       { data := [128], sequence := 1, timestamp := 0 },
       { data := [128], sequence := 2, timestamp := 0 },
       { data := [128], sequence := 3, timestamp := 0 }],
    isProcessing := false, vadActive := false, recentEnergyLevels := [] }

/-- Closed witness for C7: a fifth silent chunk reaches the low watermark
with the VAD in silence, so exactly one flush starts. -/
theorem C7_flush_decision_witness :
    (procStep (fun _ => 0)
      (ProcEvent.addChunk { data := [128], sequence := 4, timestamp := 0 })
      fourChunkState).2 = 1 :=
  (C7_flush_decision (fun _ => 0)
      { data := [128], sequence := 4, timestamp := 0 } fourChunkState rfl).mpr
    (by with_unfolding_all decide)

/-- C6: adding any sequence of chunks in any arrival order (duplicates and
sequence-number gaps included; all operations are total, so nothing can
crash) leaves the buffer sorted in ascending sequence-number order; as
long as capacity is not exceeded the buffer holds exactly the added chunks
(no chunk is dropped); and draining concatenates the buffered payloads in
that ascending buffer order into one contiguous buffer. -/
theorem C6_drain_sorted_concat (chunks : List AudioChunk) :
    ChunkSorted (buildBuffer chunks) ∧
    (chunks.length ≤ maxBufferSize → (buildBuffer chunks).Perm chunks) ∧
    combinedAudio (buildBuffer chunks) =
      ((buildBuffer chunks).map AudioChunk.data).flatten :=
  ⟨buildBuffer_sorted chunks,
   fun h => buildBuffer_perm chunks h,
   combinedAudio_eq_flatten (buildBuffer chunks)⟩

/-- Four chunks arriving out of order, with a duplicate sequence number
and a gap. -/
def outOfOrderChunks : List AudioChunk :=
  [{ data := [1, 2], sequence := 7, timestamp := 0 },
   { data := [3], sequence := 2, timestamp := 1 },
   { data := [4, 5], sequence := 7, timestamp := 2 },
   { data := [6], sequence := 0, timestamp := 3 }]

/-- Closed witness for C6 at a concrete out-of-order arrival with a
duplicate and a gap: the buffer is sorted, holds all four chunks, and
drains to the payloads concatenated in ascending sequence order. -/
theorem C6_drain_sorted_concat_witness :
    ChunkSorted (buildBuffer outOfOrderChunks) ∧
    (buildBuffer outOfOrderChunks).Perm outOfOrderChunks ∧
    combinedAudio (buildBuffer outOfOrderChunks) = [6, 3, 1, 2, 4, 5] :=
  have h := C6_drain_sorted_concat outOfOrderChunks
  ⟨h.1, h.2.1 (by decide), by decide⟩

/-- Client-visible messages sent over the WebSocket by the modelled
handlers (ws.send calls), in emission order.  vad_status, call_started,
call_ended, heartbeat and the listening acknowledgments play no role in
the claims below and are omitted from this event alphabet. -/
inductive OutEvent where
  | processingStarted (requestId : Option String)
  | streamResponse (transcription response speechAudio : String)
  | audioResponse (requestId : Option String) (transcription response speechAudio : String)
  | streamError (message : String)
  | audioError (requestId : Option String) (message : String)
  | aiInterrupted
deriving Repr, DecidableEq

/-- Outcomes of the three remote-service calls made by one pipeline run.
transcribeAudio and processWithGroqContext resolve once per run;
convertTextToSpeech is a function of the text it is asked to synthesize
(so a theorem can say which text was synthesized).  Except.error is a
thrown/rejected call, carrying the error message. -/
structure PipelineOracle where
  transcribeAudio : Except String String
  processWithGroqContext : Except String String
  convertTextToSpeech : String → Except String String

/-- The sentinel transcription value transcribeAudio resolves to after all
attempts fail to detect speech. -/
def noSpeech : String := "No speech detected"

/-- Fallback user utterance substituted when no meaningful transcription
was detected. -/
def fallbackTranscription : String := "I didn\x27t catch that clearly."

/-- Fallback assistant reply substituted when no meaningful transcription
was detected. -/
def fallbackResponse : String :=
  "I\x27m sorry, I couldn\x27t hear you clearly. Could you please speak a bit louder or try again?"

/-- The guard `!transcription || transcription === noSpeech ||
transcription.trim().length === 0` deciding the fallback branch
(`!s` on a string is JS falsiness, i.e. the empty string).  A string
trims to empty exactly when every character is whitespace, which is how
the third disjunct is embedded (the JS and Lean whitespace sets differ
only in exotic code points). -/
def meaninglessTranscription (t : String) : Prop :=
  t = "" ∨ t = noSpeech ∨ t.data.all Char.isWhitespace = true

instance (t : String) : Decidable (meaninglessTranscription t) := by
  unfold meaninglessTranscription
  infer_instance

/-- The stream_error send of processAudioForTranscription's catch block
(guarded by ws.readyState === OPEN). -/
def streamErrEvents (wsOpen : Bool) (m : String) : List OutEvent :=
  if wsOpen then [OutEvent.streamError ("Error processing audio: " ++ m)] else []

/-- The stream_response send of processAudioForTranscription (guarded by
ws.readyState === OPEN). -/
def streamRespEvents (wsOpen : Bool) (t r a : String) : List OutEvent :=
  if wsOpen then [OutEvent.streamResponse t r a] else []

/-- Result of one run of processAudioForTranscription: emitted events, the
session after its history mutations, the remaining chunk buffer, and
whether transcription was invoked at all. -/
structure StreamOutcome where
  events : List OutEvent
  session : CallSession
  audioChunks : List AudioChunk
  transcribeInvoked : Bool
deriving Repr, DecidableEq

/-- AudioStreamProcessor.processAudioForTranscription (the streaming-path
pipeline), as a pure function of the session, the chunk buffer, the
service oracle and the socket state.  Faithful control flow: no-session /
non-ACTIVE and empty-buffer guards return silently; empty combined audio
clears the buffer and returns silently; otherwise processing_started is
sent (with no requestId on this path), transcription runs, the
no-meaningful-transcription case substitutes the canned fallback exchange
(mutating history) and synthesizes it, the normal case appends the user
message, runs completion, appends the reply and synthesizes it; any
stage's throw is caught and reported as a single stream_error; the finally
block clears the chunk buffer. -/
def processAudioForTranscription (sess : CallSession)
    (audioChunks : List AudioChunk) (oracle : PipelineOracle)
    (wsOpen : Bool) : StreamOutcome :=
  if sess.state ≠ SessState.ACTIVE then
    { events := [], session := sess, audioChunks := audioChunks, transcribeInvoked := false }
  else if audioChunks.length = 0 then
    { events := [], session := sess, audioChunks := audioChunks, transcribeInvoked := false }
  else if combinedLength audioChunks = 0 then
    { events := [], session := sess, audioChunks := [], transcribeInvoked := false }
  else
    let ev0 : List OutEvent :=
      if wsOpen then [OutEvent.processingStarted none] else []
    match oracle.transcribeAudio with
    | Except.error m =>
      { events := ev0 ++ streamErrEvents wsOpen m, session := sess,
        audioChunks := [], transcribeInvoked := true }
    | Except.ok transcription =>
      if meaninglessTranscription transcription then
        let sess1 := addAIMessage (addUserMessage sess fallbackTranscription) fallbackResponse
        match oracle.convertTextToSpeech fallbackResponse with
        | Except.ok speechAudio =>
          { events := ev0 ++ streamRespEvents wsOpen fallbackTranscription fallbackResponse speechAudio,
            session := sess1, audioChunks := [], transcribeInvoked := true }
        | Except.error m =>
          { events := ev0 ++ streamErrEvents wsOpen m, session := sess1,
            audioChunks := [], transcribeInvoked := true }
      else
        let sess1 := addUserMessage sess transcription
        match oracle.processWithGroqContext with
        | Except.error m =>
          { events := ev0 ++ streamErrEvents wsOpen m, session := sess1,
            audioChunks := [], transcribeInvoked := true }
        | Except.ok response =>
          let sess2 := addAIMessage sess1 response
          match oracle.convertTextToSpeech response with
          | Except.ok speechAudio =>
            { events := ev0 ++ streamRespEvents wsOpen transcription response speechAudio,
              session := sess2, audioChunks := [], transcribeInvoked := true }
          | Except.error m =>
            { events := ev0 ++ streamErrEvents wsOpen m, session := sess2,
              audioChunks := [], transcribeInvoked := true }

/-- The audio_complete message payload fields consulted by
handleAudioComplete (format metadata only affects the temp-file name).
audioData is the base64 string, absent when the field is missing. -/
structure AudioCompleteData where
  audioData : Option String
  requestId : Option String
deriving Repr, DecidableEq

/-- Result of one run of handleAudioComplete. -/
structure HacOutcome where
  events : List OutEvent
  session : CallSession
  transcribeInvoked : Bool
deriving Repr, DecidableEq

/-- The audio_error send of handleAudioComplete's catch block. -/
def audioErrEvents (wsOpen : Bool) (requestId : Option String) (m : String) :
    List OutEvent :=
  if wsOpen then [OutEvent.audioError requestId ("Error processing audio: " ++ m)] else []

/-- The audio_response send of handleAudioComplete. -/
def audioRespEvents (wsOpen : Bool) (requestId : Option String)
    (t r a : String) : List OutEvent :=
  if wsOpen then [OutEvent.audioResponse requestId t r a] else []

/-- AudioStreamProcessor.handleAudioComplete, the audio_complete-path
pipeline.  The currentRequestId parameter is the session's current request
id (clientState.currentRequestId) at any point of the run; the source
never reads it inside this function — there is no supersession or
cancellation comparison before emitting — which is why the definition does
not use it.  A missing audioData field, and likewise an empty string
(both are falsy in `!data.audioData`), cause a silent return with no
client message.  `Buffer.from(s, 'base64')` in Node never throws — invalid
characters are skipped — so decoding cannot fail and every present,
non-empty payload proceeds to transcription. -/
def handleAudioComplete (currentRequestId : Option String)
    (sess : CallSession) (data : AudioCompleteData)
    (oracle : PipelineOracle) (wsOpen : Bool) : HacOutcome :=
  if sess.state ≠ SessState.ACTIVE then
    { events := [], session := sess, transcribeInvoked := false }
  else
    match data.audioData with
    | none => { events := [], session := sess, transcribeInvoked := false }
    | some payload =>
      if payload = "" then
        { events := [], session := sess, transcribeInvoked := false }
      else
        let ev0 : List OutEvent :=
          if wsOpen then [OutEvent.processingStarted data.requestId] else []
        match oracle.transcribeAudio with
        | Except.error m =>
          { events := ev0 ++ audioErrEvents wsOpen data.requestId m,
            session := sess, transcribeInvoked := true }
        | Except.ok transcription =>
          if meaninglessTranscription transcription then
            let sess1 := addAIMessage (addUserMessage sess fallbackTranscription) fallbackResponse
            match oracle.convertTextToSpeech fallbackResponse with
            | Except.ok speechAudio =>
              { events := ev0 ++ audioRespEvents wsOpen data.requestId
                  fallbackTranscription fallbackResponse speechAudio,
                session := sess1, transcribeInvoked := true }
            | Except.error m =>
              { events := ev0 ++ audioErrEvents wsOpen data.requestId m,
                session := sess1, transcribeInvoked := true }
          else
            let sess1 := addUserMessage sess transcription
            match oracle.processWithGroqContext with
            | Except.error m =>
              { events := ev0 ++ audioErrEvents wsOpen data.requestId m,
                session := sess1, transcribeInvoked := true }
            | Except.ok response =>
              let sess2 := addAIMessage sess1 response
              match oracle.convertTextToSpeech response with
              | Except.ok speechAudio =>
                { events := ev0 ++ audioRespEvents wsOpen data.requestId
                    transcription response speechAudio,
                  session := sess2, transcribeInvoked := true }
              | Except.error m =>
                { events := ev0 ++ audioErrEvents wsOpen data.requestId m,
                  session := sess2, transcribeInvoked := true }

/-- When a user interrupt arrives relative to the stages of an in-flight
pipeline run. -/
inductive InterruptPoint where
  | noInterrupt
  | duringCompletion
  | duringSynthesis
deriving Repr, DecidableEq

/-- handleAIInterrupt sends exactly this one acknowledgment (its state
resets — isProcessing, currentRequestId, abortController — produce no
client messages). -/
def handleAIInterruptEvents : List OutEvent := [OutEvent.aiInterrupted]

/-- Effect of an interrupt on the pipeline's service calls, from the
source: handleAIInterrupt calls abortController.abort(), and that signal
is passed only to the Groq completion call, which then rejects with
"Request cancelled".  convertTextToSpeech receives no signal and there is
no cancellation check between synthesis and the result send, so an
interrupt during synthesis leaves every stage outcome unchanged. -/
def effectiveOracle (ip : InterruptPoint) (oracle : PipelineOracle) :
    PipelineOracle :=
  if ip = InterruptPoint.duringCompletion then
    { oracle with processWithGroqContext := Except.error "Request cancelled" }
  else oracle

/-- All client-visible events of a streaming-path pipeline run during
which an interrupt arrives at the given point: the ai_interrupted
acknowledgment sent by handleAIInterrupt, and the pipeline's own events
under the interrupt-adjusted oracle. -/
def interruptScenarioEvents (ip : InterruptPoint) (sess : CallSession)
    (chunks : List AudioChunk) (oracle : PipelineOracle) (wsOpen : Bool) :
    List OutEvent :=
  (if ip = InterruptPoint.noInterrupt then [] else handleAIInterruptEvents)
    ++ (processAudioForTranscription sess chunks (effectiveOracle ip oracle) wsOpen).events

/-- An ACTIVE session with empty history, for concrete runs. -/
def sessA : CallSession := { state := SessState.ACTIVE, history := [] }

/-- A single non-empty chunk, for concrete runs. -/
def oneChunk : List AudioChunk :=
  [{ data := [1, 2, 3], sequence := 0, timestamp := 0 }]

/-- An oracle on which every service call succeeds. -/
def oracleOkay : PipelineOracle :=
  { transcribeAudio := Except.ok "hello there",
    processWithGroqContext := Except.ok "hi, how can I help?",
    convertTextToSpeech := fun _ => Except.ok "b64audio" }

/-- An oracle on which transcription detects no speech and synthesis
succeeds. -/
def oracleNoSpeech : PipelineOracle :=
  { transcribeAudio := Except.ok noSpeech,
    processWithGroqContext := Except.ok "unused",
    convertTextToSpeech := fun _ => Except.ok "b64audio" }

/-- An oracle on which transcription and completion succeed but speech
synthesis rejects. -/
def oracleTTSFail : PipelineOracle :=
  { transcribeAudio := Except.ok "hello there",
    processWithGroqContext := Except.ok "hi, how can I help?",
    convertTextToSpeech := fun _ => Except.error "TTS boom" }

/-- C9: whenever transcription resolves with empty text or the
no-speech-detected sentinel (or all-whitespace text), the streaming
pipeline does not fail: the canned fallback user utterance and assistant
reply are appended to the session history, the fallback reply is the text
handed to speech synthesis, and a normal stream_response carrying the
fallback exchange is emitted — no error event. -/
theorem C9_empty_transcription_fallback (sess : CallSession)
    (chunks : List AudioChunk) (oracle : PipelineOracle) (t a : String)
    (hs : sess.state = SessState.ACTIVE)
    (hn : ¬ chunks.length = 0)
    (hc : ¬ combinedLength chunks = 0)
    (ht : oracle.transcribeAudio = Except.ok t)
    (hm : meaninglessTranscription t)
    (htts : oracle.convertTextToSpeech fallbackResponse = Except.ok a) :
    (processAudioForTranscription sess chunks oracle true).events
      = [OutEvent.processingStarted none,
         OutEvent.streamResponse fallbackTranscription fallbackResponse a] ∧
    (processAudioForTranscription sess chunks oracle true).session.history
      = sess.history
        ++ [{ role := Role.user, content := fallbackTranscription },
            { role := Role.assistant, content := fallbackResponse }] := by
  unfold processAudioForTranscription
  rw [if_neg (by simp [hs]), if_neg hn, if_neg hc, ht]
  simp only [if_pos hm, htts]
  constructor
  · simp [streamRespEvents]
  · simp [addUserMessage, addAIMessage]

/-- Closed witness for C9: a no-speech transcription on a concrete chunk
yields the fallback exchange in both the response event and the history. -/
theorem C9_empty_transcription_fallback_witness :
    (processAudioForTranscription sessA oneChunk oracleNoSpeech true).events
      = [OutEvent.processingStarted none,
         OutEvent.streamResponse fallbackTranscription fallbackResponse "b64audio"] ∧
    (processAudioForTranscription sessA oneChunk oracleNoSpeech true).session.history
      = [{ role := Role.user, content := fallbackTranscription },
         { role := Role.assistant, content := fallbackResponse }] :=
  have h := C9_empty_transcription_fallback sessA oneChunk oracleNoSpeech noSpeech
    "b64audio" rfl (by decide) (by decide) rfl (Or.inr (Or.inl rfl)) rfl
  ⟨h.1, by
    have h2 := h.2
    simpa [sessA] using h2⟩

/-- C10: when every buffered chunk has an empty payload (combined length
zero) on an active session, processAudioForTranscription clears the
buffer and returns with no client event of any kind and without invoking
transcription — the empty utterance is dropped silently. -/
theorem C10_empty_combined_audio_dropped (sess : CallSession)
    (chunks : List AudioChunk) (oracle : PipelineOracle) (wsOpen : Bool)
    (hs : sess.state = SessState.ACTIVE)
    (hn : ¬ chunks.length = 0)
    (he : ∀ c ∈ chunks, c.data = []) :
    processAudioForTranscription sess chunks oracle wsOpen
      = { events := [], session := sess, audioChunks := [],
          transcribeInvoked := false } := by
  have hc : combinedLength chunks = 0 := by
    unfold combinedLength
    apply List.sum_eq_zero
    intro x hx
    rcases List.mem_map.mp hx with ⟨c, hcmem, rfl⟩
    simp [he c hcmem]
  unfold processAudioForTranscription
  rw [if_neg (by simp [hs]), if_neg hn, if_pos hc]

/-- Closed witness for C10: two buffered chunks with empty payloads are
dropped with no events and no transcription. -/
theorem C10_empty_combined_audio_dropped_witness :
    processAudioForTranscription sessA
      [{ data := [], sequence := 0, timestamp := 0 },
       { data := [], sequence := 1, timestamp := 0 }] oracleOkay true
      = { events := [], session := sessA, audioChunks := [],
          transcribeInvoked := false } :=
  C10_empty_combined_audio_dropped sessA
    [{ data := [], sequence := 0, timestamp := 0 },
     { data := [], sequence := 1, timestamp := 0 }] oracleOkay true
    rfl (by decide) (by decide)

/-- C3 counterexample: a concrete run in which transcription and
completion succeed but synthesis rejects.  The client receives a
stream_error — not a text-only result event: the catch block around the
whole pipeline intercepts the synthesis failure the same way it would a
transcription failure, so the turn fails as a whole. -/
theorem C3_counterexample :
    (processAudioForTranscription sessA oneChunk oracleTTSFail true).events
      = [OutEvent.processingStarted none,
         OutEvent.streamError "Error processing audio: TTS boom"] := by
  decide

/-- C3 amended: when transcription and completion succeed but speech
synthesis fails, the streaming pipeline emits a stream_error event (the
catch block makes no distinction between stages — there is no text-only
degradation), even though by that point both the user utterance and the
assistant reply have already been appended to the session history. -/
theorem C3_synthesis_failure_is_stream_error (sess : CallSession)
    (chunks : List AudioChunk) (oracle : PipelineOracle) (t r m : String)
    (hs : sess.state = SessState.ACTIVE)
    (hn : ¬ chunks.length = 0)
    (hc : ¬ combinedLength chunks = 0)
    (ht : oracle.transcribeAudio = Except.ok t)
    (hm : ¬ meaninglessTranscription t)
    (hg : oracle.processWithGroqContext = Except.ok r)
    (htts : oracle.convertTextToSpeech r = Except.error m) :
    (processAudioForTranscription sess chunks oracle true).events
      = [OutEvent.processingStarted none,
         OutEvent.streamError ("Error processing audio: " ++ m)] ∧
    (processAudioForTranscription sess chunks oracle true).session.history
      = sess.history
        ++ [{ role := Role.user, content := t },
            { role := Role.assistant, content := r }] := by
  unfold processAudioForTranscription
  rw [if_neg (by simp [hs]), if_neg hn, if_neg hc, ht]
  simp only [if_neg hm, hg, htts]
  constructor
  · simp [streamErrEvents]
  · simp [addUserMessage, addAIMessage]

/-- Closed witness for the amended C3 at the concrete failing oracle. -/
theorem C3_synthesis_failure_is_stream_error_witness :
    (processAudioForTranscription sessA oneChunk oracleTTSFail true).events
      = [OutEvent.processingStarted none,
         OutEvent.streamError ("Error processing audio: " ++ "TTS boom")] ∧
    (processAudioForTranscription sessA oneChunk oracleTTSFail true).session.history
      = [{ role := Role.user, content := "hello there" },
         { role := Role.assistant, content := "hi, how can I help?" }] :=
  have h := C3_synthesis_failure_is_stream_error sessA oneChunk oracleTTSFail
    "hello there" "hi, how can I help?" "TTS boom"
    rfl (by decide) (by decide) rfl (by decide) rfl rfl
  ⟨h.1, by simpa [sessA] using h.2⟩

/-- C4 counterexample: an audio_complete message whose audioData field is
missing, on an active session, produces no client event at all — in
particular no error tagged with its requestId: the handler logs and
returns before any send. -/
theorem C4_counterexample :
    (handleAudioComplete none sessA
        { audioData := none, requestId := some "req_1" } oracleOkay true).events
      = [] := by
  decide

/-- C4 amended: a missing audio payload in an audio_complete message on an
active session is dropped silently: the handler returns before sending
anything, so the client gets no event and transcription is never invoked.
(An unparseable-but-present payload, by contrast, cannot fail decoding —
Node's base64 decoder skips invalid characters — so it proceeds to
transcription, whose failure is then reported as an audio_error tagged
with the requestId.) -/
theorem C4_missing_audio_is_silent (currentRequestId : Option String)
    (sess : CallSession) (data : AudioCompleteData)
    (oracle : PipelineOracle) (wsOpen : Bool)
    (hs : sess.state = SessState.ACTIVE)
    (hd : data.audioData = none) :
    handleAudioComplete currentRequestId sess data oracle wsOpen
      = { events := [], session := sess, transcribeInvoked := false } := by
  unfold handleAudioComplete
  rw [if_neg (by simp [hs]), hd]

/-- Closed witness for the amended C4. -/
theorem C4_missing_audio_is_silent_witness :
    handleAudioComplete none sessA
        { audioData := none, requestId := some "req_1" } oracleOkay true
      = { events := [], session := sessA, transcribeInvoked := false } :=
  C4_missing_audio_is_silent none sessA
    { audioData := none, requestId := some "req_1" } oracleOkay true rfl rfl

/-- An audio_complete payload for submission A. -/
def dataA : AudioCompleteData :=
  { audioData := some "QUJD", requestId := some "req_A" }

/-- C1 counterexample: submission A (requestId req_A) whose pipeline
reaches its emission point after submission B has replaced it as the
session's current request (currentRequestId = req_B).  A's audio_response
is emitted anyway: handleAudioComplete performs no comparison of its
requestId against the session's current one before sending. -/
theorem C1_counterexample :
    OutEvent.audioResponse (some "req_A") "hello there" "hi, how can I help?"
        "b64audio"
      ∈ (handleAudioComplete (some "req_B") sessA dataA oracleOkay true).events := by
  decide

/-- C1 amended: handleAudioComplete never consults the session's current
requestId — its entire outcome is identical under any value of
currentRequestId — and on an active session with a present payload and
all stages succeeding it emits processing_started followed by the
audio_response tagged with the message's own requestId, current or not.
A superseded request's result is therefore still delivered. -/
theorem C1_result_emitted_regardless_of_current_request
    (cur cur2 : Option String) (sess : CallSession)
    (data : AudioCompleteData) (oracle : PipelineOracle) (wsOpen : Bool)
    (payload t r a : String) :
    handleAudioComplete cur sess data oracle wsOpen
      = handleAudioComplete cur2 sess data oracle wsOpen ∧
    (sess.state = SessState.ACTIVE → data.audioData = some payload →
      ¬ payload = "" → oracle.transcribeAudio = Except.ok t →
      ¬ meaninglessTranscription t →
      oracle.processWithGroqContext = Except.ok r →
      oracle.convertTextToSpeech r = Except.ok a → wsOpen = true →
      (handleAudioComplete cur sess data oracle wsOpen).events
        = [OutEvent.processingStarted data.requestId,
           OutEvent.audioResponse data.requestId t r a]) := by
  constructor
  · rfl
  · intro hs hd hp ht hm hg htts hws
    subst hws
    unfold handleAudioComplete
    rw [if_neg (by simp [hs]), hd]
    simp only [if_neg hp, ht, if_neg hm, hg, htts]
    simp [audioRespEvents]

/-- Closed witness for the amended C1: the concrete superseded run (current
request req_B, message requestId req_A) has the same outcome as the
non-superseded one and still emits A's audio_response. -/
theorem C1_result_emitted_regardless_of_current_request_witness :
    handleAudioComplete (some "req_B") sessA dataA oracleOkay true
      = handleAudioComplete (some "req_A") sessA dataA oracleOkay true ∧
    (handleAudioComplete (some "req_B") sessA dataA oracleOkay true).events
      = [OutEvent.processingStarted (some "req_A"),
         OutEvent.audioResponse (some "req_A") "hello there"
           "hi, how can I help?" "b64audio"] :=
  have h := C1_result_emitted_regardless_of_current_request
    (some "req_B") (some "req_A") sessA dataA oracleOkay true
    "QUJD" "hello there" "hi, how can I help?" "b64audio"
  ⟨h.1, by
    have h2 := h.2 rfl rfl (by decide) rfl (by decide) rfl rfl rfl
    simpa [dataA] using h2⟩

/-- C2 counterexample: a concrete streaming run interrupted during the
speech-synthesis stage still emits the stream_response for that request —
convertTextToSpeech receives no abort signal and no cancellation check
exists between synthesis and the send, so the interrupt does not suppress
the result. -/
theorem C2_counterexample :
    OutEvent.streamResponse "hello there" "hi, how can I help?" "b64audio"
      ∈ interruptScenarioEvents InterruptPoint.duringSynthesis sessA oneChunk
          oracleOkay true := by
  decide

/-- C2 amended: an interrupt received during the speech-synthesis stage of
a streaming pipeline run results in exactly one ai_interrupted
acknowledgment, but the stream_response for the interrupted request is
still emitted once synthesis completes: the abort signal only affects the
completion call, and no cancellation check is made before the final send. -/
theorem C2_interrupt_during_synthesis_still_responds (sess : CallSession)
    (chunks : List AudioChunk) (oracle : PipelineOracle) (t r a : String)
    (hs : sess.state = SessState.ACTIVE)
    (hn : ¬ chunks.length = 0)
    (hc : ¬ combinedLength chunks = 0)
    (ht : oracle.transcribeAudio = Except.ok t)
    (hm : ¬ meaninglessTranscription t)
    (hg : oracle.processWithGroqContext = Except.ok r)
    (htts : oracle.convertTextToSpeech r = Except.ok a) :
    interruptScenarioEvents InterruptPoint.duringSynthesis sess chunks oracle true
      = [OutEvent.aiInterrupted, OutEvent.processingStarted none,
         OutEvent.streamResponse t r a] := by
  unfold interruptScenarioEvents
  rw [if_neg (by decide)]
  have heff : effectiveOracle InterruptPoint.duringSynthesis oracle = oracle := by
    unfold effectiveOracle
    rw [if_neg (by decide)]
  rw [heff]
  unfold processAudioForTranscription
  rw [if_neg (by simp [hs]), if_neg hn, if_neg hc, ht]
  simp only [if_neg hm, hg, htts]
  simp [handleAIInterruptEvents, streamRespEvents]

/-- Closed witness for the amended C2 at a concrete interrupted run. -/
theorem C2_interrupt_during_synthesis_still_responds_witness :
    interruptScenarioEvents InterruptPoint.duringSynthesis sessA oneChunk
        oracleOkay true
      = [OutEvent.aiInterrupted, OutEvent.processingStarted none,
         OutEvent.streamResponse "hello there" "hi, how can I help?" "b64audio"] :=
  C2_interrupt_during_synthesis_still_responds sessA oneChunk oracleOkay
    "hello there" "hi, how can I help?" "b64audio"
    rfl (by decide) (by decide) rfl (by decide) rfl rfl

end VoiceBackend
